import Mathlib

/-!
Verification development for `nispat/hbr.py` (Hierarchical Bayesian Regression
for normative modeling).

The Python class `HBR` builds a PyMC3 probabilistic model graph in its
constructor, runs MCMC sampling in `estimate()`, and computes posterior
predictive means/variances in `predict()`.  We give a shallow embedding:

* the model graph is embedded as data: the list of declared free random
  variables (name, distribution, shape) together with symbolic expressions
  for the likelihood mean `y_hat` and noise `sigma_y`, built over the
  theano shared variables `self.a`, `self.s`, `self.g` and over embedded
  numpy constants;
* the object state (`site_num`, `gender_num`, `model_type`, the shared
  covariate buffers, the stored model, the optional trace) is an explicit
  record, and the mutating methods return the updated record;
* the external PyMC3 sampler is opaque (spec section 6): `pm.sample` and
  `pm.sample_posterior_predictive` are modelled by functions that record
  their call arguments and produce arrays of the documented lengths, with
  numeric values supplied by abstract parameters;
* Python exceptions (`ValueError` on an unknown model type, the
  `AttributeError` when `predict` reads a missing trace, numpy broadcast
  errors in the group-mean loop) become `Except String` results.
-/

set_option autoImplicit false
set_option maxRecDepth 8000

namespace Nispat

/-- A numpy array as it appears in this code: either 1-D (`a1`) or, after
`np.expand_dims(age, axis=1)`, a 2-D column array (`a2`). -/
inductive NDArr where
  | a1 (v : List ℚ)
  | a2 (v : List (List ℚ))
  deriving DecidableEq, Repr

/-- Row count of an array (`len(x)` in Python). -/
def NDArr.len : NDArr → Nat
  | .a1 v => v.length
  | .a2 v => v.length

/-- Model of `np.expand_dims(age, axis=1)` on a 1-D array: each entry becomes a row. -/
def expandCol (age : List ℚ) : List (List ℚ) :=
  age.map (fun x => [x])

/-- A hyperparameter of a declared distribution: a numeric constant or a
reference to a previously declared random variable. -/
inductive HP where
  | c (v : ℚ)
  | rv (name : String)
  deriving DecidableEq, Repr

/-- The distributions used by `hbr.py` when declaring free random variables. -/
inductive DistSpec where
  | normal (mu sigma : HP)
  | halfCauchy (beta : HP)
  | uniform (lower upper : HP)
  | halfNormal (sd : HP)
  deriving DecidableEq, Repr

/-- A declared free random variable of the model: its PyMC3 name, its prior
distribution and its declared shape (`[]` is a scalar).  Test values
(`testval`, used only as sampler initialization hints in the `nn` branch)
carry no distributional content and are not recorded. -/
structure FreeRV where
  name : String
  dist : DistSpec
  shape : List Nat
  deriving DecidableEq, Repr

/-- Symbolic tensor expressions over the graph: the three theano shared
variables (`self.a`, `self.s`, `self.g`), embedded numpy constants, references
to declared random variables, integer-array indexing (`x[s]`, `x[g, s]`, the
latter also covering trailing-slice forms `x[g, s, :]` and `x[g, s, :, :]`),
arithmetic, `tanh` and `theano.tensor.batched_dot`. -/
inductive Expr where
  | sharedA
  | sharedS
  | sharedG
  | cnst (v : NDArr)
  | rv (name : String)
  | idx1 (base i : Expr)
  | idx2 (base i j : Expr)
  | add (a b : Expr)
  | mul (a b : Expr)
  | pow (a : Expr) (n : Nat)
  | tanh (a : Expr)
  | batchedDot (a b : Expr)
  deriving DecidableEq, Repr

/-- Whether an expression references the shared age buffer `self.a`.  Only
nodes built from `sharedA` are affected by `self.a.set_value(...)`. -/
def usesSharedA : Expr → Bool
  | .sharedA => true
  | .idx1 b i => usesSharedA b || usesSharedA i
  | .idx2 b i j => usesSharedA b || usesSharedA i || usesSharedA j
  | .add a b => usesSharedA a || usesSharedA b
  | .mul a b => usesSharedA a || usesSharedA b
  | .pow a _ => usesSharedA a
  | .tanh a => usesSharedA a
  | .batchedDot a b => usesSharedA a || usesSharedA b
  | _ => false

/-- Whether an expression contains the given numpy constant as a subterm. -/
def mentionsCnst (v : NDArr) : Expr → Bool
  | .cnst w => decide (w = v)
  | .idx1 b i => mentionsCnst v b || mentionsCnst v i
  | .idx2 b i j => mentionsCnst v b || mentionsCnst v i || mentionsCnst v j
  | .add a b => mentionsCnst v a || mentionsCnst v b
  | .mul a b => mentionsCnst v a || mentionsCnst v b
  | .pow a _ => mentionsCnst v a
  | .tanh a => mentionsCnst v a
  | .batchedDot a b => mentionsCnst v a || mentionsCnst v b
  | _ => false

/-- Whether an expression contains the quadratic age term `self.a ** 2`. -/
def hasQuadAge : Expr → Bool
  | .pow .sharedA 2 => true
  | .pow a _ => hasQuadAge a
  | .idx1 b i => hasQuadAge b || hasQuadAge i
  | .idx2 b i j => hasQuadAge b || hasQuadAge i || hasQuadAge j
  | .add a b => hasQuadAge a || hasQuadAge b
  | .mul a b => hasQuadAge a || hasQuadAge b
  | .tanh a => hasQuadAge a
  | .batchedDot a b => hasQuadAge a || hasQuadAge b
  | _ => false

/-- The model graph stored in `self.model`: the declared free random
variables, the likelihood mean expression `y_hat`, the likelihood noise
expression `sigma_y`, and the observed outcome vector `y` attached by
`pm.Normal('y_like', mu=y_hat, sigma=sigma_y, observed=y)`. -/
structure ModelGraph where
  freeRVs : List FreeRV
  y_hat : Expr
  sigma_y : Expr
  observed : List ℚ
  deriving DecidableEq, Repr

/-- A posterior trace: the number of chains, retained draws per chain,
tuning iterations discarded per chain, the model it was sampled from, and
per-parameter flat sample arrays (`trace[name]` flattens chains, so a
parameter of shape `sh` yields `nchains * ndraws * sh.prod` numbers). -/
structure Trace where
  nchains : Nat
  ndraws : Nat
  tune : Nat
  model : ModelGraph
  values : List (String × List ℚ)
  deriving DecidableEq, Repr

/-- Lookup `trace[name]`: the flat sample array of a parameter. -/
def Trace.get (tr : Trace) (name : String) : List ℚ :=
  ((tr.values.find? (fun p => p.1 == name)).map Prod.snd).getD []

/-- The `HBR` object state: the group counts and variant tag fixed at
construction, the three theano shared covariate buffers, the stored model
graph, and the trace attached by `estimate()` (`none` before the first
call, when reading `self.trace` raises `AttributeError`). -/
structure HBR where
  site_num : Nat
  gender_num : Nat
  model_type : String
  a : NDArr
  s : List ℤ
  g : List ℤ
  model : ModelGraph
  trace : Option Trace
  deriving DecidableEq, Repr

/-- Model of `len(np.unique(x))`: the number of distinct values in an array. -/
def uniqueCount (l : List ℤ) : Nat :=
  l.dedup.length

/-- The variant tags with an implemented branch in `HBR.__init__`. -/
def supportedVariants : List String :=
  ["lin_rand_int", "lin_rand_int_slp", "lin_rand_int_slp_nse", "poly2", "nn"]

/-- The free random variables declared before the variant branch: the global
intercept/slope hyper-priors and the per-site random intercepts. -/
def commonRVs (site_num : Nat) : List FreeRV :=
  [⟨"mu_prior_intercept", .normal (.c 0) (.c 100000), []⟩,
   ⟨"sigma_prior_intercept", .halfCauchy (.c 5), []⟩,
   ⟨"mu_prior_slope", .normal (.c 0) (.c 100000), []⟩,
   ⟨"sigma_prior_slope", .halfCauchy (.c 5), []⟩,
   ⟨"intercepts", .normal (.rv "mu_prior_intercept") (.rv "sigma_prior_intercept"), [site_num]⟩]

/-- The term `intercepts[self.s]`. -/
def interceptTerm : Expr :=
  .idx1 (.rv "intercepts") .sharedS

/-- Model of `HBR.__init__(age, site_id, gender, y, model_type)`: computes the group
counts from the unique training ids, creates the shared covariate buffers
(the age buffer holds the column-expanded array for `nn`), and builds the
variant's model graph; an unrecognized `model_type` raises
`ValueError('Unknown method:' + model_type)`.  Note that the `nn` branch
builds its network input from the local numpy `age` value
(`theano.tensor.batched_dot(age, weights_in_1)`), embedded here as the
constant `.cnst (.a2 (expandCol age))`, not from the shared buffer. -/
def init (age : List ℚ) (site_id gender : List ℤ) (y : List ℚ)
    (model_type : String) : Except String HBR :=
  let site_num := uniqueCount site_id
  let gender_num := uniqueCount gender
  let ageBuf : NDArr := if model_type = "nn" then .a2 (expandCol age) else .a1 age
  let base := commonRVs site_num
  let mk : List FreeRV → Expr → Expr → HBR := fun rvs yhat sy =>
    { site_num := site_num, gender_num := gender_num, model_type := model_type,
      a := ageBuf, s := site_id, g := gender,
      model := { freeRVs := rvs, y_hat := yhat, sigma_y := sy, observed := y },
      trace := none }
  if model_type = "lin_rand_int" then
    .ok (mk
      (base ++
        [⟨"slopes", .normal (.rv "mu_prior_slope") (.rv "sigma_prior_slope"), [gender_num]⟩,
         ⟨"sigma_error", .uniform (.c 0) (.c 100), []⟩])
      (.add interceptTerm (.mul .sharedA (.idx1 (.rv "slopes") .sharedG)))
      (.rv "sigma_error"))
  else if model_type = "lin_rand_int_slp" then
    .ok (mk
      (base ++
        [⟨"slopes", .normal (.rv "mu_prior_slope") (.rv "sigma_prior_slope"), [gender_num, site_num]⟩,
         ⟨"sigma_error", .uniform (.c 0) (.c 100), []⟩])
      (.add interceptTerm (.mul .sharedA (.idx2 (.rv "slopes") .sharedG .sharedS)))
      (.rv "sigma_error"))
  else if model_type = "lin_rand_int_slp_nse" then
    .ok (mk
      (base ++
        [⟨"slopes", .normal (.rv "mu_prior_slope") (.rv "sigma_prior_slope"), [gender_num, site_num]⟩,
         ⟨"sigma_error", .uniform (.c 0) (.c 100), [gender_num, site_num]⟩])
      (.add interceptTerm (.mul .sharedA (.idx2 (.rv "slopes") .sharedG .sharedS)))
      (.idx2 (.rv "sigma_error") .sharedG .sharedS))
  else if model_type = "poly2" then
    .ok (mk
      (base ++
        [⟨"slopes", .normal (.rv "mu_prior_slope") (.rv "sigma_prior_slope"), [gender_num, site_num]⟩,
         ⟨"mu_prior_slope_2", .normal (.c 0) (.c 100000), []⟩,
         ⟨"sigma_prior_slope_2", .halfCauchy (.c 5), []⟩,
         ⟨"slopes_2", .normal (.rv "mu_prior_slope_2") (.rv "sigma_prior_slope_2"), [gender_num, site_num]⟩,
         ⟨"sigma_error", .uniform (.c 0) (.c 100), [gender_num, site_num]⟩])
      (.add
        (.add interceptTerm (.mul .sharedA (.idx2 (.rv "slopes") .sharedG .sharedS)))
        (.mul (.pow .sharedA 2) (.idx2 (.rv "slopes_2") .sharedG .sharedS)))
      (.idx2 (.rv "sigma_error") .sharedG .sharedS))
  else if model_type = "nn" then
    .ok (mk
      (base ++
        [⟨"w_in_1_grp", .normal (.c 0) (.c 1), [1, 2]⟩,
         ⟨"w_in_1_grp_sd", .halfNormal (.c 1), [1, 2]⟩,
         ⟨"w_1_out_grp", .normal (.c 0) (.c 1), [2]⟩,
         ⟨"w_1_out_grp_sd", .halfNormal (.c 1), [2]⟩,
         ⟨"w_in_1", .normal (.c 0) (.c 1), [gender_num, site_num, 1, 2]⟩,
         ⟨"w_1_out", .normal (.c 0) (.c 1), [gender_num, site_num, 2]⟩,
         ⟨"sigma_error", .uniform (.c 0) (.c 100), [gender_num, site_num]⟩])
      (.batchedDot
        (.tanh (.batchedDot (.cnst (.a2 (expandCol age)))
          (.add (.mul (.idx2 (.rv "w_in_1") .sharedG .sharedS) (.rv "w_in_1_grp_sd"))
            (.rv "w_in_1_grp"))))
        (.add (.mul (.idx2 (.rv "w_1_out") .sharedG .sharedS) (.rv "w_1_out_grp_sd"))
          (.rv "w_1_out_grp")))
      (.idx2 (.rv "sigma_error") .sharedG .sharedS))
  else
    .error ("Unknown method:" ++ model_type)

/-- Construction with the Python default argument `model_type = 'lin'`. -/
def initDefault (age : List ℚ) (site_id gender : List ℤ) (y : List ℚ) :
    Except String HBR :=
  init age site_id gender y "lin"

/-- Model of `pm.sample(draws, tune=tune, chains=chains)`.  Modelled from the spec
(section 6: the external inference engine provides
`sample(draws, tune, chains) -> trace`): the sampler is opaque, so the
numeric draws come from an abstract source `rand`; the trace records the
call arguments, the model it was run on, and for every declared parameter a
flat sample array of `chains * draws * shape.prod` numbers. -/
def pmSample (draws tune chains : Nat) (m : ModelGraph)
    (rand : String → Nat → ℚ) : Trace :=
  { nchains := chains, ndraws := draws, tune := tune, model := m,
    values := m.freeRVs.map (fun fr =>
      (fr.name, (List.range (chains * draws * fr.shape.prod)).map (rand fr.name))) }

/-- Model of `HBR.estimate()`: runs `pm.sample(1000, tune=1000, chains=2)` on the
stored model, stores the trace on the object (overwriting any previous one)
and returns that same trace. -/
def estimate (rand : String → Nat → ℚ) (st : HBR) : HBR × Trace :=
  let tr := pmSample 1000 1000 2 st.model rand
  ({ st with trace := some tr }, tr)

/-- The arguments of the `pm.sample_posterior_predictive` call made by
`predict()`: the trace passed in, the requested number of samples, and the
model graph together with the current values of its shared covariate
buffers. -/
structure PPCall where
  trace : Trace
  samples : Nat
  graph : ModelGraph
  aBuf : NDArr
  sBuf : List ℤ
  gBuf : List ℤ
  deriving DecidableEq, Repr

/-- Model of `pm.sample_posterior_predictive(trace, samples=samples)`.  Modelled from
the spec (section 6 and section 4.3: posterior predictive samples of the
outcome at the currently bound covariates): the result for the observed node
`y_like` is `samples` rows, each of the length of the bound covariate
buffers; the numeric values are opaque and come from the abstract source
`draw`. -/
def samplePPC (call : PPCall) (draw : Nat → Nat → ℚ) : List (List ℚ) :=
  (List.range call.samples).map (fun k =>
    (List.range call.aBuf.len).map (fun i => draw k i))

/-- Mean of a list (`np.mean`; the empty case, NaN in numpy, is irrelevant
here and returns `0`). -/
def listMean (l : List ℚ) : ℚ :=
  l.sum / l.length

/-- Population variance of a list (`np.var`, i.e. `ddof=0`). -/
def listVar (l : List ℚ) : ℚ :=
  ((l.map (fun x => (x - listMean l) ^ 2)).sum) / l.length

/-- Model of `arr.mean(axis=0)` for a list of `w`-length rows. -/
def meanAxis0 (w : Nat) (rows : List (List ℚ)) : List ℚ :=
  (List.range w).map (fun i => listMean (rows.map (fun r => r.getD i 0)))

/-- Model of `arr.var(axis=0)` for a list of `w`-length rows. -/
def varAxis0 (w : Nat) (rows : List (List ℚ)) : List ℚ :=
  (List.range w).map (fun i => listVar (rows.map (fun r => r.getD i 0)))

/-- Elementwise addition of two numpy 1-D arrays; arrays of different
lengths cannot be broadcast together and raise. -/
def ewAdd (a b : List ℚ) : Except String (List ℚ) :=
  if a.length = b.length then .ok (a.zipWith (· + ·) b) else
    .error "operands could not be broadcast together"

/-- The numpy row assignment `temp[i, :] = r` into a row of width `w`:
raises unless `r` has exactly `w` entries. -/
def assignRow (w : Nat) (r : List ℚ) : Except String (List ℚ) :=
  if r.length = w then .ok r else
    .error "could not broadcast input array"

/-- Effectful map over a list, stopping at the first raised error (the
Python `for` loop over the rows of `temp`). -/
def exMapM {α β : Type} (f : α → Except String β) : List α → Except String (List β)
  | [] => .ok []
  | x :: xs => do
    let y ← f x
    let ys ← exMapM f xs
    pure (y :: ys)

/-- The three variant tags grouped by `predict`'s first branch
(`model_type == 'lin_rand_int' or ... or ...`). -/
def linVariants : List String :=
  ["lin_rand_int", "lin_rand_int_slp", "lin_rand_int_slp_nse"]

/-- The `temp` matrix of `predict`: one row per new subject, of width
`w = nchains * samples`.  For the linear variants row `i` is
`age[i] * trace['mu_prior_slope'] + trace['mu_prior_intercept']`; for
`poly2` it additionally has the quadratic term from
`trace['mu_prior_slope_2']`; for `nn` the row is a symbolic-tensor
computation over the group-level weight traces whose numeric outcome the
repository does not define, modelled by the abstract `nnRow`; any other tag
leaves the `np.zeros` row untouched. -/
def groupTemp (mt : String) (age : List ℚ) (tr : Trace) (w : Nat)
    (nnRow : List ℚ → Trace → List ℚ) : Except String (List (List ℚ)) :=
  if mt ∈ linVariants then
    exMapM (fun x => do
      let r ← ewAdd ((tr.get "mu_prior_slope").map (fun v => x * v))
        (tr.get "mu_prior_intercept")
      assignRow w r) age
  else if mt = "poly2" then
    exMapM (fun x => do
      let r1 ← ewAdd ((tr.get "mu_prior_slope_2").map (fun v => x ^ 2 * v))
        ((tr.get "mu_prior_slope").map (fun v => x * v))
      let r ← ewAdd r1 (tr.get "mu_prior_intercept")
      assignRow w r) age
  else if mt = "nn" then
    exMapM (fun arow => assignRow w (nnRow arow tr)) (expandCol age)
  else
    .ok (age.map (fun _ => List.replicate w 0))

/-- Everything `predict` computes: the post-call object state (with the
rebound covariate buffers), the recorded posterior-predictive call, its
result, the returned `pred_mean`/`pred_var`, and the internal
`temp`/`group_mean`/`group_var`. -/
structure PredictOut where
  st : HBR
  call : PPCall
  ppc : List (List ℚ)
  pred_mean : List ℚ
  pred_var : List ℚ
  temp : List (List ℚ)
  group_mean : List ℚ
  group_var : List ℚ
  deriving DecidableEq, Repr

/-- Assemble the results of `predict` once the posterior-predictive call has
been made (on the mutated state `st1`) and the `temp` rows have been
computed: the call uses `samples=1000`, and `pred_mean`/`pred_var` are the
per-subject mean/variance across the posterior-predictive samples. -/
def mkPredOut (st1 : HBR) (tr : Trace) (draw : Nat → Nat → ℚ) (ageLen : Nat)
    (temp : List (List ℚ)) : PredictOut :=
  let call : PPCall :=
    { trace := tr, samples := 1000, graph := st1.model,
      aBuf := st1.a, sBuf := st1.s, gBuf := st1.g }
  let ppc := samplePPC call draw
  { st := st1, call := call, ppc := ppc,
    pred_mean := meanAxis0 ageLen ppc,
    pred_var := varAxis0 ageLen ppc,
    temp := temp,
    group_mean := temp.map listMean,
    group_var := temp.map listVar }

/-- The body of `predict` once `self.trace` has been read successfully:
rebind the shared covariate buffers (`set_value`, with the age
column-expanded for `nn`) and combine the posterior-predictive samples with
the group-mean `temp` rows (whose broadcast errors propagate). -/
def predictWithTrace (nnRow : List ℚ → Trace → List ℚ) (draw : Nat → Nat → ℚ)
    (st : HBR) (age : List ℚ) (site_id gender : List ℤ) (tr : Trace) :
    Except String PredictOut :=
  (groupTemp st.model_type age tr (tr.nchains * 1000) nnRow).map
    (mkPredOut
      { st with
        a := if st.model_type = "nn" then .a2 (expandCol age) else .a1 age,
        s := site_id, g := gender }
      tr draw age.length)

/-- Model of `HBR.predict(age, site_id, gender)`, with every intermediate
result exposed.  Reading `self.trace` raises `AttributeError` when
`estimate` was never called; otherwise the buffers are rebound, 1000
posterior-predictive samples are drawn, and the group-mean trend matrix is
computed. -/
def predictFull (nnRow : List ℚ → Trace → List ℚ) (draw : Nat → Nat → ℚ)
    (st : HBR) (age : List ℚ) (site_id gender : List ℤ) :
    Except String PredictOut :=
  match st.trace with
  | none => .error "AttributeError: HBR object has no attribute trace"
  | some tr => predictWithTrace nnRow draw st age site_id gender tr

/-- Model of `HBR.predict` as seen by the caller: the mutated object together with
the returned pair `(pred_mean, pred_var)`; `group_mean` and `group_var` are
not part of the return value. -/
def predict (nnRow : List ℚ → Trace → List ℚ) (draw : Nat → Nat → ℚ)
    (st : HBR) (age : List ℚ) (site_id gender : List ℤ) :
    Except String (HBR × (List ℚ × List ℚ)) :=
  (predictFull nnRow draw st age site_id gender).map
    (fun o => (o.st, (o.pred_mean, o.pred_var)))

/-- Whether an exception-carrying computation succeeded. -/
def isOkE {α : Type} : Except String α → Bool
  | .ok _ => true
  | .error _ => false

/-- A placeholder graph, used only as the default of `getE`. -/
def dummyGraph : ModelGraph :=
  { freeRVs := [], y_hat := .sharedA, sigma_y := .sharedA, observed := [] }

instance : Inhabited ModelGraph := ⟨dummyGraph⟩

instance : Inhabited HBR :=
  ⟨{ site_num := 0, gender_num := 0, model_type := "", a := .a1 [], s := [],
     g := [], model := dummyGraph, trace := none }⟩

instance : Inhabited Trace :=
  ⟨{ nchains := 0, ndraws := 0, tune := 0, model := dummyGraph, values := [] }⟩

instance : Inhabited PPCall :=
  ⟨{ trace := default, samples := 0, graph := dummyGraph, aBuf := .a1 [],
     sBuf := [], gBuf := [] }⟩

instance : Inhabited PredictOut :=
  ⟨{ st := default, call := default, ppc := [], pred_mean := [], pred_var := [],
     temp := [], group_mean := [], group_var := [] }⟩

/-- The value carried by a successful computation (junk on an error). -/
def getE {α : Type} [Inhabited α] : Except String α → α
  | .ok a => a
  | .error _ => default

/-- Search the declared free random variables of a constructed model for a
name and return the declaration's shape. -/
def shapeIn (e : Except String HBR) (name : String) :
    Except String (Option (List Nat)) :=
  e.map (fun st => (st.model.freeRVs.find? (fun fr => fr.name == name)).map FreeRV.shape)

/-- Search the declared free random variables of a constructed model for a
name and return the whole declaration. -/
def rvIn (e : Except String HBR) (name : String) :
    Except String (Option FreeRV) :=
  e.map (fun st => st.model.freeRVs.find? (fun fr => fr.name == name))

/-- Three-list pointwise combination, truncating at the shortest list. -/
def zipWith3 (f : ℚ → ℚ → ℚ → ℚ) : List ℚ → List ℚ → List ℚ → List ℚ
  | a :: as, b :: bs, c :: cs => f a b c :: zipWith3 f as bs cs
  | _, _, _ => []

/-- The population-level trend of the spec, per trace draw:
`age^2 * slope2 + age * slope + intercept`, pointwise over the three flat
sample arrays. -/
def trendRow (x : ℚ) (sl2 sl ic : List ℚ) : List ℚ :=
  zipWith3 (fun a b c => x ^ 2 * a + x * b + c) sl2 sl ic

/-- A small concrete fitted model used to instantiate the theorems:
`lin_rand_int`, two sites, two genders, two training subjects. -/
def linSt : HBR := getE (init [1, 2] [0, 1] [0, 1] [3, 4] "lin_rand_int")

/-- A concrete one-chain trace (1000 retained draws) for `linSt`. -/
def smallTrace : Trace :=
  { nchains := 1, ndraws := 1000, tune := 1000, model := linSt.model,
    values := [("mu_prior_slope", List.replicate 1000 (1 / 2)),
               ("mu_prior_intercept", List.replicate 1000 3)] }

/-- The concrete fitted state: `linSt` with `smallTrace` attached. -/
def linStT : HBR := { linSt with trace := some smallTrace }

/-- A small concrete `nn` model: two sites, two genders, training ages
`[1, 2]`. -/
def nnSt : HBR := getE (init [1, 2] [0, 1] [0, 1] [3, 4] "nn")

/-- A degenerate trace for `nnSt` (no chains), enough to drive `predict`. -/
def nnTrace : Trace :=
  { nchains := 0, ndraws := 0, tune := 0, model := nnSt.model, values := [] }

/-- The concrete fitted `nn` state. -/
def nnStT : HBR := { nnSt with trace := some nnTrace }

theorem isOkE_eq_ok {α : Type} [Inhabited α] {e : Except String α}
    (h : isOkE e = true) : e = .ok (getE e) := by
  cases e with
  | ok a => rfl
  | error e => simp [isOkE] at h

theorem exbind_ok {α β : Type} (a : α) (f : α → Except String β) :
    (Except.ok a >>= f : Except String β) = f a := rfl

theorem exbind_error {α β : Type} (e : String) (f : α → Except String β) :
    (Except.error e >>= f : Except String β) = .error e := rfl

theorem ewAdd_ok {a b : List ℚ} (h : a.length = b.length) :
    ewAdd a b = .ok (a.zipWith (· + ·) b) := by
  simp [ewAdd, h]

theorem exMapM_ok {α β : Type} {f : α → Except String β} {g : α → β}
    {l : List α} (h : ∀ x ∈ l, f x = .ok (g x)) :
    exMapM f l = .ok (l.map g) := by
  induction l with
  | nil => rfl
  | cons a as ih =>
    have ha : f a = .ok (g a) := h a (List.mem_cons_self a as)
    have hrest := ih (fun x hx => h x (List.mem_cons_of_mem a hx))
    rw [List.map_cons, exMapM, ha, exbind_ok, hrest, exbind_ok]
    rfl

theorem zipWith3_replicate_zero (x : ℚ) (l1 l2 : List ℚ) :
    zipWith3 (fun a b c => x ^ 2 * a + x * b + c) (List.replicate l1.length 0) l1 l2
      = l1.zipWith (fun b c => x * b + c) l2 := by
  induction l1 generalizing l2 with
  | nil => simp [zipWith3]
  | cons a as ih =>
    cases l2 with
    | nil => simp [zipWith3]
    | cons c cs =>
      simp [zipWith3, List.replicate_succ, ih]

theorem zipWith3_length_of_eq {f : ℚ → ℚ → ℚ → ℚ} {a b c : List ℚ} {w : Nat}
    (ha : a.length = w) (hb : b.length = w) (hc : c.length = w) :
    (zipWith3 f a b c).length = w := by
  induction a generalizing b c w with
  | nil => simpa [zipWith3] using ha
  | cons x xs ih =>
    cases b with
    | nil => rw [← hb] at ha; simp at ha
    | cons y ys =>
      cases c with
      | nil => rw [← hc] at ha; simp at ha
      | cons z zs =>
        cases w with
        | zero => simp at ha
        | succ w =>
          simp only [zipWith3, List.length_cons, Nat.succ.injEq] at *
          exact ih ha hb hc

theorem zipWith_maps_eq_zipWith3 (f1 f2 : ℚ → ℚ) (a b c : List ℚ) :
    ((a.map f1).zipWith (· + ·) (b.map f2)).zipWith (· + ·) c
      = zipWith3 (fun p q r => f1 p + f2 q + r) a b c := by
  induction a generalizing b c with
  | nil => simp [zipWith3]
  | cons x xs ih =>
    cases b with
    | nil => simp [zipWith3]
    | cons y ys =>
      cases c with
      | nil => simp [zipWith3]
      | cons z zs =>
        simp only [List.map_cons, List.zipWith_cons_cons, zipWith3]
        rw [ih]

theorem groupTemp_lin {mt : String} (hmt : mt ∈ linVariants)
    (age : List ℚ) (tr : Trace) (w : Nat) (nnRow : List ℚ → Trace → List ℚ)
    (hsl : (tr.get "mu_prior_slope").length = w)
    (hic : (tr.get "mu_prior_intercept").length = w) :
    groupTemp mt age tr w nnRow =
      .ok (age.map (fun x =>
        (tr.get "mu_prior_slope").zipWith (fun b c => x * b + c)
          (tr.get "mu_prior_intercept"))) := by
  unfold groupTemp
  rw [if_pos hmt]
  apply exMapM_ok
  intro x _
  rw [ewAdd_ok (by simp [hsl, hic]), exbind_ok, List.zipWith_map_left,
    assignRow, if_pos (by simp [List.length_zipWith, hsl, hic])]

theorem groupTemp_poly2 (age : List ℚ) (tr : Trace) (w : Nat)
    (nnRow : List ℚ → Trace → List ℚ)
    (hsl2 : (tr.get "mu_prior_slope_2").length = w)
    (hsl : (tr.get "mu_prior_slope").length = w)
    (hic : (tr.get "mu_prior_intercept").length = w) :
    groupTemp "poly2" age tr w nnRow =
      .ok (age.map (fun x =>
        trendRow x (tr.get "mu_prior_slope_2") (tr.get "mu_prior_slope")
          (tr.get "mu_prior_intercept"))) := by
  unfold groupTemp
  rw [if_neg (by decide), if_pos rfl]
  apply exMapM_ok
  intro x _
  rw [ewAdd_ok (by simp [hsl2, hsl]), exbind_ok,
    ewAdd_ok (by simp [List.length_zipWith, hsl2, hsl, hic]), exbind_ok,
    zipWith_maps_eq_zipWith3, assignRow,
    if_pos (zipWith3_length_of_eq hsl2 hsl hic)]
  rfl

/-- Unfolding of `predictFull` once the stored trace is known. -/
theorem predictFull_some_trace (nnRow : List ℚ → Trace → List ℚ)
    (draw : Nat → Nat → ℚ) (st : HBR) (age : List ℚ) (site_id gender : List ℤ)
    (tr : Trace) (htr : st.trace = some tr) :
    predictFull nnRow draw st age site_id gender =
      predictWithTrace nnRow draw st age site_id gender tr := by
  unfold predictFull
  rw [htr]

/-- On a successful call, the result is `mkPredOut` of the mutated state and
of the computed `temp` rows. -/
theorem predictFull_getE {nnRow : List ℚ → Trace → List ℚ}
    {draw : Nat → Nat → ℚ} {st : HBR} {age : List ℚ} {site_id gender : List ℤ}
    {tr : Trace} (htr : st.trace = some tr)
    (h : isOkE (predictFull nnRow draw st age site_id gender) = true) :
    getE (predictFull nnRow draw st age site_id gender) =
      mkPredOut
        { st with
          a := if st.model_type = "nn" then .a2 (expandCol age) else .a1 age,
          s := site_id, g := gender }
        tr draw age.length
        (getE (groupTemp st.model_type age tr (tr.nchains * 1000) nnRow)) := by
  rw [predictFull_some_trace nnRow draw st age site_id gender tr htr] at h ⊢
  unfold predictWithTrace at h ⊢
  cases hgt : groupTemp st.model_type age tr (tr.nchains * 1000) nnRow with
  | ok temp => rfl
  | error e => rw [hgt] at h; simp [Except.map, isOkE] at h

/-- On a successful call, the post-call object state has the covariate
buffers rebound and every other field unchanged. -/
theorem predictFull_st {nnRow : List ℚ → Trace → List ℚ} {draw : Nat → Nat → ℚ}
    {st : HBR} {age : List ℚ} {site_id gender : List ℤ}
    (h : isOkE (predictFull nnRow draw st age site_id gender) = true) :
    (getE (predictFull nnRow draw st age site_id gender)).st =
      { st with
        a := if st.model_type = "nn" then .a2 (expandCol age) else .a1 age,
        s := site_id, g := gender } := by
  cases htr : st.trace with
  | none =>
    rw [predictFull, htr] at h
    simp [isOkE] at h
  | some tr =>
    rw [predictFull_getE htr h]
    simp [mkPredOut, htr]

/-- C1: for every variant tag outside the implemented enumeration
(`lin_rand_int`, `lin_rand_int_slp`, `lin_rand_int_slp_nse`, `poly2`, `nn`)
— including the tag `lin` — construction raises the unknown-model
`ValueError` (and hence returns no model; no sampling can occur, since
sampling only happens in `estimate`, which needs a constructed model). -/
theorem hbr_C1_unknown_variant_errors (age : List ℚ) (site_id gender : List ℤ)
    (y : List ℚ) (mt : String) (h : mt ∉ supportedVariants) :
    init age site_id gender y mt = .error ("Unknown method:" ++ mt) := by
  simp only [supportedVariants, List.mem_cons, List.mem_singleton, not_or] at h
  obtain ⟨h1, h2, h3, h4, h5, -⟩ := h
  simp [init, h1, h2, h3, h4, h5]

theorem hbr_C1_unknown_variant_errors_witness :
    "lin" ∉ supportedVariants ∧
      init [1, 2] [0, 1] [0, 1] [3, 4] "lin" = .error "Unknown method:lin" :=
  ⟨by decide, hbr_C1_unknown_variant_errors [1, 2] [0, 1] [0, 1] [3, 4] "lin" (by decide)⟩

/-- C9: the Python default argument is `model_type = 'lin'`, which has no
implemented branch, so constructing `HBR` without an explicit variant tag
raises `ValueError('Unknown method:lin')` for every choice of training
arrays. -/
theorem hbr_C9_default_tag_errors (age : List ℚ) (site_id gender : List ℤ)
    (y : List ℚ) :
    initDefault age site_id gender y = .error "Unknown method:lin" := rfl

/-- C3: `estimate()` runs `pm.sample` on the stored model graph with exactly
2 chains, 1000 tuning iterations and 1000 retained draws, stores the
resulting trace on the object (overwriting any previously stored trace,
whatever it was) and returns that same trace. -/
theorem hbr_C3_estimate_contract (rand : String → Nat → ℚ) (st : HBR) :
    (estimate rand st).1.trace = some (estimate rand st).2 ∧
    (estimate rand st).2 = pmSample 1000 1000 2 st.model rand ∧
    (estimate rand st).2.nchains = 2 ∧
    (estimate rand st).2.ndraws = 1000 ∧
    (estimate rand st).2.tune = 1000 ∧
    (estimate rand st).2.model = st.model ∧
    (∀ tr0 : Trace,
      (estimate rand { st with trace := some tr0 }).1.trace
        = some (estimate rand st).2) :=
  ⟨rfl, rfl, rfl, rfl, rfl, rfl, fun _ => rfl⟩

/-- C2: for every supported variant tag and any training arrays,
construction succeeds, discovers `S`/`G` as the number of unique training
site/gender ids, and declares the latent parameters with the documented
shapes: `intercepts` of shape `S` in every variant; for `lin_rand_int`
slopes of shape `(G,)` with a scalar `Uniform(0, 100)` noise scale; for
`lin_rand_int_slp` slopes `(G, S)` with scalar noise; for
`lin_rand_int_slp_nse` slopes `(G, S)` and noise `(G, S)`; for `poly2`
additionally `slopes_2` of shape `(G, S)` with a quadratic age term in the
mean and noise `(G, S)`. -/
theorem hbr_C2_construction_shapes (age : List ℚ) (site_id gender : List ℤ)
    (y : List ℚ) :
    ((init age site_id gender y "lin_rand_int").map
        (fun st => (st.site_num, st.gender_num))
      = .ok (uniqueCount site_id, uniqueCount gender)) ∧
    (shapeIn (init age site_id gender y "lin_rand_int") "intercepts"
      = .ok (some [uniqueCount site_id])) ∧
    (shapeIn (init age site_id gender y "lin_rand_int") "slopes"
      = .ok (some [uniqueCount gender])) ∧
    (rvIn (init age site_id gender y "lin_rand_int") "sigma_error"
      = .ok (some ⟨"sigma_error", .uniform (.c 0) (.c 100), []⟩)) ∧
    (shapeIn (init age site_id gender y "lin_rand_int_slp") "intercepts"
      = .ok (some [uniqueCount site_id])) ∧
    (shapeIn (init age site_id gender y "lin_rand_int_slp") "slopes"
      = .ok (some [uniqueCount gender, uniqueCount site_id])) ∧
    (rvIn (init age site_id gender y "lin_rand_int_slp") "sigma_error"
      = .ok (some ⟨"sigma_error", .uniform (.c 0) (.c 100), []⟩)) ∧
    (shapeIn (init age site_id gender y "lin_rand_int_slp_nse") "intercepts"
      = .ok (some [uniqueCount site_id])) ∧
    (shapeIn (init age site_id gender y "lin_rand_int_slp_nse") "slopes"
      = .ok (some [uniqueCount gender, uniqueCount site_id])) ∧
    (rvIn (init age site_id gender y "lin_rand_int_slp_nse") "sigma_error"
      = .ok (some ⟨"sigma_error", .uniform (.c 0) (.c 100),
          [uniqueCount gender, uniqueCount site_id]⟩)) ∧
    (shapeIn (init age site_id gender y "poly2") "intercepts"
      = .ok (some [uniqueCount site_id])) ∧
    (shapeIn (init age site_id gender y "poly2") "slopes"
      = .ok (some [uniqueCount gender, uniqueCount site_id])) ∧
    (shapeIn (init age site_id gender y "poly2") "slopes_2"
      = .ok (some [uniqueCount gender, uniqueCount site_id])) ∧
    (rvIn (init age site_id gender y "poly2") "sigma_error"
      = .ok (some ⟨"sigma_error", .uniform (.c 0) (.c 100),
          [uniqueCount gender, uniqueCount site_id]⟩)) ∧
    ((init age site_id gender y "poly2").map (fun st => hasQuadAge st.model.y_hat)
      = .ok true) ∧
    ((init age site_id gender y "nn").map
        (fun st => (st.site_num, st.gender_num))
      = .ok (uniqueCount site_id, uniqueCount gender)) ∧
    (shapeIn (init age site_id gender y "nn") "intercepts"
      = .ok (some [uniqueCount site_id])) :=
  ⟨rfl, rfl, rfl, rfl, rfl, rfl, rfl, rfl, rfl, rfl, rfl, rfl, rfl, rfl, rfl,
   rfl, rfl⟩

/-- C8: on a constructed model on which `estimate` has never been called the
trace attribute is absent, so `predict` raises (`AttributeError` on reading
`self.trace`) instead of returning output. -/
theorem hbr_C8_predict_before_estimate (nnRow : List ℚ → Trace → List ℚ)
    (draw : Nat → Nat → ℚ) (st : HBR) (h : st.trace = none)
    (age : List ℚ) (site_id gender : List ℤ) :
    predict nnRow draw st age site_id gender
      = .error "AttributeError: HBR object has no attribute trace" := by
  rw [predict, predictFull, h]
  rfl

theorem hbr_C8_predict_before_estimate_witness :
    (getE (init [1, 2] [0, 1] [0, 1] [3, 4] "lin_rand_int")).trace = none ∧
      predict (fun _ _ => []) (fun _ _ => 0)
          (getE (init [1, 2] [0, 1] [0, 1] [3, 4] "lin_rand_int")) [5] [0] [0]
        = .error "AttributeError: HBR object has no attribute trace" :=
  ⟨rfl, hbr_C8_predict_before_estimate (fun _ _ => []) (fun _ _ => 0)
    (getE (init [1, 2] [0, 1] [0, 1] [3, 4] "lin_rand_int")) rfl [5] [0] [0]⟩

theorem meanAxis0_length (w : Nat) (rows : List (List ℚ)) :
    (meanAxis0 w rows).length = w := by
  simp [meanAxis0]

theorem varAxis0_length (w : Nat) (rows : List (List ℚ)) :
    (varAxis0 w rows).length = w := by
  simp [varAxis0]

theorem meanAxis0_getD {w i : Nat} (rows : List (List ℚ)) (hi : i < w) :
    (meanAxis0 w rows).getD i 0 = listMean (rows.map (fun r => r.getD i 0)) := by
  simp [meanAxis0, List.getD_eq_getElem?_getD, List.getElem?_map,
    List.getElem?_range hi]

theorem varAxis0_getD {w i : Nat} (rows : List (List ℚ)) (hi : i < w) :
    (varAxis0 w rows).getD i 0 = listVar (rows.map (fun r => r.getD i 0)) := by
  simp [varAxis0, List.getD_eq_getElem?_getD, List.getElem?_map,
    List.getElem?_range hi]

/-- C5: on every successful `predict` call, the caller receives exactly the
pair `(pred_mean, pred_var)`; both arrays have length equal to the number of
new-subject covariates supplied; entry `i` of each is the mean
(respectively the population variance) over the posterior-predictive
samples of subject `i`; `group_mean` and `group_var` are computed from the
`temp` matrix but are not part of the returned value. -/
theorem hbr_C5_predict_outputs (nnRow : List ℚ → Trace → List ℚ)
    (draw : Nat → Nat → ℚ) (st : HBR) (age : List ℚ) (site_id gender : List ℤ)
    (h : isOkE (predictFull nnRow draw st age site_id gender) = true) :
    (getE (predictFull nnRow draw st age site_id gender)).pred_mean.length
      = age.length ∧
    (getE (predictFull nnRow draw st age site_id gender)).pred_var.length
      = age.length ∧
    predict nnRow draw st age site_id gender
      = .ok ((getE (predictFull nnRow draw st age site_id gender)).st,
          ((getE (predictFull nnRow draw st age site_id gender)).pred_mean,
           (getE (predictFull nnRow draw st age site_id gender)).pred_var)) ∧
    (getE (predictFull nnRow draw st age site_id gender)).pred_mean
      = meanAxis0 age.length
          (getE (predictFull nnRow draw st age site_id gender)).ppc ∧
    (getE (predictFull nnRow draw st age site_id gender)).pred_var
      = varAxis0 age.length
          (getE (predictFull nnRow draw st age site_id gender)).ppc ∧
    (∀ i, i < age.length →
      (getE (predictFull nnRow draw st age site_id gender)).pred_mean.getD i 0
        = listMean ((getE (predictFull nnRow draw st age site_id gender)).ppc.map
            (fun r => r.getD i 0))) ∧
    (∀ i, i < age.length →
      (getE (predictFull nnRow draw st age site_id gender)).pred_var.getD i 0
        = listVar ((getE (predictFull nnRow draw st age site_id gender)).ppc.map
            (fun r => r.getD i 0))) ∧
    (getE (predictFull nnRow draw st age site_id gender)).group_mean
      = (getE (predictFull nnRow draw st age site_id gender)).temp.map listMean ∧
    (getE (predictFull nnRow draw st age site_id gender)).group_var
      = (getE (predictFull nnRow draw st age site_id gender)).temp.map listVar := by
  cases htr : st.trace with
  | none =>
    rw [predictFull, htr] at h
    simp [isOkE] at h
  | some tr =>
    have hg := predictFull_getE htr h
    refine ⟨?_, ?_, ?_, ?_, ?_, ?_, ?_, ?_, ?_⟩
    · rw [hg]; exact meanAxis0_length _ _
    · rw [hg]; exact varAxis0_length _ _
    · rw [predict, isOkE_eq_ok h]; rfl
    · rw [hg]; rfl
    · rw [hg]; rfl
    · intro i hi; rw [hg]; exact meanAxis0_getD _ hi
    · intro i hi; rw [hg]; exact varAxis0_getD _ hi
    · rw [hg]; rfl
    · rw [hg]; rfl

/-- C6: for the linear variants (the three `lin_rand_int*` tags and
`poly2`), the internally computed group-mean trend row for subject `i` is
`age[i]^2 * slope2 + age[i] * slope + intercept` per trace draw, using only
the global hyper-priors' posterior samples (`mu_prior_slope_2`,
`mu_prior_slope`, `mu_prior_intercept`; the three purely linear variants
declare no `mu_prior_slope_2` parameter, so their quadratic coefficient is
read as zero), and `group_mean`/`group_var` are the mean and population
variance of that trend over the draws.  The length hypotheses state that
the flat per-parameter sample arrays have one entry per draw and chain,
which is how `estimate` produces them. -/
theorem hbr_C6_group_trend (nnRow : List ℚ → Trace → List ℚ)
    (draw : Nat → Nat → ℚ) (st : HBR) (age : List ℚ) (site_id gender : List ℤ)
    (tr : Trace) (htr : st.trace = some tr)
    (hmt : st.model_type ∈ linVariants ∨ st.model_type = "poly2")
    (hsl : (tr.get "mu_prior_slope").length = tr.nchains * 1000)
    (hic : (tr.get "mu_prior_intercept").length = tr.nchains * 1000)
    (hsl2 : st.model_type = "poly2" →
      (tr.get "mu_prior_slope_2").length = tr.nchains * 1000) :
    ((predictFull nnRow draw st age site_id gender).map (fun o => o.temp)
      = .ok (age.map (fun x => trendRow x
          (if st.model_type = "poly2" then tr.get "mu_prior_slope_2"
           else List.replicate (tr.get "mu_prior_slope").length 0)
          (tr.get "mu_prior_slope") (tr.get "mu_prior_intercept")))) ∧
    ((predictFull nnRow draw st age site_id gender).map (fun o => o.group_mean)
      = .ok ((age.map (fun x => trendRow x
          (if st.model_type = "poly2" then tr.get "mu_prior_slope_2"
           else List.replicate (tr.get "mu_prior_slope").length 0)
          (tr.get "mu_prior_slope") (tr.get "mu_prior_intercept"))).map listMean)) ∧
    ((predictFull nnRow draw st age site_id gender).map (fun o => o.group_var)
      = .ok ((age.map (fun x => trendRow x
          (if st.model_type = "poly2" then tr.get "mu_prior_slope_2"
           else List.replicate (tr.get "mu_prior_slope").length 0)
          (tr.get "mu_prior_slope") (tr.get "mu_prior_intercept"))).map listVar)) := by
  have hkey : groupTemp st.model_type age tr (tr.nchains * 1000) nnRow
      = .ok (age.map (fun x => trendRow x
          (if st.model_type = "poly2" then tr.get "mu_prior_slope_2"
           else List.replicate (tr.get "mu_prior_slope").length 0)
          (tr.get "mu_prior_slope") (tr.get "mu_prior_intercept"))) := by
    rcases hmt with hlin | hpoly
    · have hne : st.model_type ≠ "poly2" := by
        simp only [linVariants, List.mem_cons, List.mem_singleton] at hlin
        rcases hlin with h | h | h | h
        · simp [h]
        · simp [h]
        · simp [h]
        · simp at h
      rw [groupTemp_lin hlin age tr (tr.nchains * 1000) nnRow hsl hic,
        if_neg hne]
      exact congrArg Except.ok (List.map_congr_left
        (fun x _ => (zipWith3_replicate_zero x (tr.get "mu_prior_slope")
          (tr.get "mu_prior_intercept")).symm))
    · rw [hpoly,
        groupTemp_poly2 age tr (tr.nchains * 1000) nnRow (hsl2 hpoly) hsl hic,
        if_pos rfl]
  refine ⟨?_, ?_, ?_⟩ <;>
    rw [predictFull_some_trace nnRow draw st age site_id gender tr htr,
      predictWithTrace, hkey] <;> rfl

/-- C7: every (successful) `predict` call rebinds the shared covariate
buffers to the supplied arrays (the age buffer holding the column-expanded
array for `nn`), so a second call overwrites the covariates set by the
first, and no other model state — the model graph, the stored trace,
`site_num`, `gender_num`, the variant tag — is modified. -/
theorem hbr_C7_predict_mutation (nnRow nnRow2 : List ℚ → Trace → List ℚ)
    (draw draw2 : Nat → Nat → ℚ) (st : HBR)
    (age age2 : List ℚ) (site_id gender site2 gender2 : List ℤ)
    (h1 : isOkE (predictFull nnRow draw st age site_id gender) = true)
    (h2 : isOkE (predictFull nnRow2 draw2
      (getE (predictFull nnRow draw st age site_id gender)).st
      age2 site2 gender2) = true) :
    (getE (predictFull nnRow draw st age site_id gender)).st.a
      = (if st.model_type = "nn" then .a2 (expandCol age) else .a1 age) ∧
    (getE (predictFull nnRow draw st age site_id gender)).st.s = site_id ∧
    (getE (predictFull nnRow draw st age site_id gender)).st.g = gender ∧
    (getE (predictFull nnRow draw st age site_id gender)).st.model = st.model ∧
    (getE (predictFull nnRow draw st age site_id gender)).st.trace = st.trace ∧
    (getE (predictFull nnRow draw st age site_id gender)).st.site_num
      = st.site_num ∧
    (getE (predictFull nnRow draw st age site_id gender)).st.gender_num
      = st.gender_num ∧
    (getE (predictFull nnRow draw st age site_id gender)).st.model_type
      = st.model_type ∧
    (getE (predictFull nnRow2 draw2
        (getE (predictFull nnRow draw st age site_id gender)).st
        age2 site2 gender2)).st.a
      = (if st.model_type = "nn" then .a2 (expandCol age2) else .a1 age2) ∧
    (getE (predictFull nnRow2 draw2
        (getE (predictFull nnRow draw st age site_id gender)).st
        age2 site2 gender2)).st.s = site2 ∧
    (getE (predictFull nnRow2 draw2
        (getE (predictFull nnRow draw st age site_id gender)).st
        age2 site2 gender2)).st.g = gender2 ∧
    (getE (predictFull nnRow2 draw2
        (getE (predictFull nnRow draw st age site_id gender)).st
        age2 site2 gender2)).st.model = st.model ∧
    (getE (predictFull nnRow2 draw2
        (getE (predictFull nnRow draw st age site_id gender)).st
        age2 site2 gender2)).st.trace = st.trace := by
  have e1 := predictFull_st h1
  have e2 := predictFull_st h2
  rw [e1] at e2
  refine ⟨?_, ?_, ?_, ?_, ?_, ?_, ?_, ?_, ?_, ?_, ?_, ?_, ?_⟩ <;>
    simp only [e1, e2]

/-- C10: the fields `site_num`, `gender_num` and `model_type` fixed at
construction are preserved unchanged by every subsequent operation:
`estimate` does not modify them, and neither does a (successful) `predict`
call, whatever site/gender ids its covariates contain. -/
theorem hbr_C10_fields_preserved (rand : String → Nat → ℚ)
    (nnRow : List ℚ → Trace → List ℚ) (draw : Nat → Nat → ℚ) (st : HBR)
    (age : List ℚ) (site_id gender : List ℤ)
    (hP : isOkE (predictFull nnRow draw st age site_id gender) = true) :
    (estimate rand st).1.site_num = st.site_num ∧
    (estimate rand st).1.gender_num = st.gender_num ∧
    (estimate rand st).1.model_type = st.model_type ∧
    (getE (predictFull nnRow draw st age site_id gender)).st.site_num
      = st.site_num ∧
    (getE (predictFull nnRow draw st age site_id gender)).st.gender_num
      = st.gender_num ∧
    (getE (predictFull nnRow draw st age site_id gender)).st.model_type
      = st.model_type := by
  have e1 := predictFull_st hP
  exact ⟨rfl, rfl, rfl, by rw [e1], by rw [e1], by rw [e1]⟩

/-- C4 (code bug): `predict` rebinds the shared age buffer for every
variant, but the `nn` branch of the constructor builds its likelihood mean
from the raw numpy `age` value (`batched_dot(age, weights_in_1)`) instead
of the shared buffer `self.a`, so the mean of the `nn` variant never
references the shared age buffer: after a `predict` call with new age `[5]`
the buffer holds `[[5]]`, yet the stored mean expression still hardwires the
training ages `[[1], [2]]` and contains no `sharedA` node, so no value
bound to the buffer can reach it.  In the four other variants the mean does
reference the shared age buffer. -/
theorem hbr_C4_nn_age_not_substituted :
    usesSharedA nnSt.model.y_hat = false ∧
    mentionsCnst (.a2 (expandCol [1, 2])) nnSt.model.y_hat = true ∧
    usesSharedA (getE (init [1, 2] [0, 1] [0, 1] [3, 4] "lin_rand_int")).model.y_hat
      = true ∧
    usesSharedA (getE (init [1, 2] [0, 1] [0, 1] [3, 4] "lin_rand_int_slp")).model.y_hat
      = true ∧
    usesSharedA (getE (init [1, 2] [0, 1] [0, 1] [3, 4] "lin_rand_int_slp_nse")).model.y_hat
      = true ∧
    usesSharedA (getE (init [1, 2] [0, 1] [0, 1] [3, 4] "poly2")).model.y_hat
      = true ∧
    isOkE (predictFull (fun _ _ => []) (fun _ _ => 0) nnStT [5] [0] [0]) = true ∧
    (getE (predictFull (fun _ _ => []) (fun _ _ => 0) nnStT [5] [0] [0])).st.a
      = .a2 (expandCol [5]) ∧
    (getE (predictFull (fun _ _ => []) (fun _ _ => 0) nnStT [5] [0] [0])).st.model.y_hat
      = nnSt.model.y_hat ∧
    usesSharedA
      (getE (predictFull (fun _ _ => []) (fun _ _ => 0) nnStT [5] [0] [0])).st.model.y_hat
      = false ∧
    mentionsCnst (.a2 (expandCol [1, 2]))
      (getE (predictFull (fun _ _ => []) (fun _ _ => 0) nnStT [5] [0] [0])).st.model.y_hat
      = true ∧
    mentionsCnst (.a2 (expandCol [5]))
      (getE (predictFull (fun _ _ => []) (fun _ _ => 0) nnStT [5] [0] [0])).st.model.y_hat
      = false := by
  decide

theorem hbr_C5_predict_outputs_witness :
    isOkE (predictFull (fun _ _ => []) (fun _ _ => 0) linStT [5, 6] [0, 1] [1, 0])
      = true ∧
    (getE (predictFull (fun _ _ => []) (fun _ _ => 0) linStT [5, 6] [0, 1] [1, 0])).pred_mean.length
      = 2 :=
  ⟨by decide,
   (hbr_C5_predict_outputs (fun _ _ => []) (fun _ _ => 0) linStT [5, 6] [0, 1]
     [1, 0] (by decide)).1⟩

theorem hbr_C6_group_trend_witness :
    linStT.trace = some smallTrace ∧
    ((predictFull (fun _ _ => []) (fun _ _ => 0) linStT [5] [0] [1]).map
        (fun o => o.temp)
      = .ok ([5].map (fun x => trendRow x
          (if linStT.model_type = "poly2" then smallTrace.get "mu_prior_slope_2"
           else List.replicate (smallTrace.get "mu_prior_slope").length 0)
          (smallTrace.get "mu_prior_slope")
          (smallTrace.get "mu_prior_intercept")))) :=
  ⟨rfl,
   (hbr_C6_group_trend (fun _ _ => []) (fun _ _ => 0) linStT [5] [0] [1]
     smallTrace rfl (by decide) (by decide) (by decide) (by decide)).1⟩

theorem hbr_C7_predict_mutation_witness :
    (getE (predictFull (fun _ _ => []) (fun _ _ => 0) linStT [5, 6] [0, 1] [1, 0])).st.s
      = [0, 1] ∧
    (getE (predictFull (fun _ _ => []) (fun _ _ => 0)
        (getE (predictFull (fun _ _ => []) (fun _ _ => 0) linStT [5, 6] [0, 1] [1, 0])).st
        [7] [0] [0])).st.s
      = [0] := by
  obtain ⟨-, hs1, -, -, -, -, -, -, -, hs2, -, -, -⟩ :=
    hbr_C7_predict_mutation (fun _ _ => []) (fun _ _ => []) (fun _ _ => 0)
      (fun _ _ => 0) linStT [5, 6] [7] [0, 1] [1, 0] [0] [0]
      (by decide) (by decide)
  exact ⟨hs1, hs2⟩

theorem hbr_C10_fields_preserved_witness :
    (estimate (fun _ _ => 0) linStT).1.site_num = linStT.site_num ∧
    (getE (predictFull (fun _ _ => []) (fun _ _ => 0) linStT [5, 6] [0, 1] [1, 0])).st.site_num
      = linStT.site_num := by
  obtain ⟨h1, -, -, h4, -, -⟩ :=
    hbr_C10_fields_preserved (fun _ _ => 0) (fun _ _ => []) (fun _ _ => 0)
      linStT [5, 6] [0, 1] [1, 0] (by decide)
  exact ⟨h1, h4⟩

end Nispat
